import Mathlib

/-!
# Verification of the Asana task-creation pipeline

A shallow embedding of the task-normalization and registry-resolution
pipeline of the repository: the registry loader and alias resolvers
(`src/lib/asana-registry.ts`), the rate-limit-aware task client
(`src/lib/asana.ts`), and the orchestrating tool with its due-date,
title and notes helpers (the `asanaCreateTask` tool module).

Modelling conventions:
* JavaScript strings are modelled as `List Char`; `toLowerCase`, `trim`,
  `includes`, `split` are re-implemented on lists (ASCII case folding,
  which is what the registry data uses).
* JavaScript `Date` values are modelled as a day number (days since
  0000-03-01, proleptic Gregorian, the standard civil-days encoding)
  plus a millisecond time-of-day for "now".  The runtime's local time
  zone is modelled as UTC, so `toISOString` agrees with the local
  calendar accessors.
* Network I/O is modelled by an environment (`AsanaEnv`) giving the
  HTTP response to the n-th create call and the n-th permalink call;
  the interpreters additionally count the network calls they perform.
* `new Date(string)` parsing of non-pattern date inputs is
  implementation-defined in JS; it is modelled as an extra input
  (`Option` calendar date, `none` = `Invalid Date`).
-/

set_option linter.unusedVariables false

namespace AsanaSpec

/-! ## Strings as character lists -/

/-- JS strings are modelled as lists of characters. -/
abbrev Str := List Char

/-- `String.prototype.toLowerCase` (ASCII range, which covers the data used). -/
def lowerStr (s : Str) : Str := s.map Char.toLower

/-- The whitespace class used by `String.prototype.trim`. -/
def isWs (c : Char) : Bool := c = ' ' || c = '\t' || c = '\n' || c = '\r'

/-- Drop leading whitespace. -/
def trimLeft (s : Str) : Str := s.dropWhile isWs

/-- Drop trailing whitespace (`List.rdropWhile` is literally
`(s.reverse.dropWhile p).reverse`). -/
def trimRight (s : Str) : Str := s.rdropWhile isWs

/-- `String.prototype.trim`. -/
def trimStr (s : Str) : Str := trimRight (trimLeft s)

/-- `a.includes(b)` : substring containment. -/
def includesStr (s pat : Str) : Bool :=
  if pat.isPrefixOf s then true
  else
    match s with
    | [] => false
    | _ :: t => includesStr t pat

/-- `s.split(' ')` : split on single space characters (JS keeps empty pieces). -/
def splitSpace (s : Str) : List Str := s.splitOn ' '

/-- JS truthiness-based `a || b` for an optional string
(`undefined` and `''` are falsy). -/
def jsOrStr (a : Option Str) (b : Str) : Str :=
  match a with
  | some s => if s = [] then b else s
  | none => b

/-- JS truthiness-based `a || b` for an optional number (`undefined` and `0`
are falsy). -/
def jsOrNum (a : Option Nat) (b : Nat) : Nat :=
  match a with
  | some v => if v = 0 then b else v
  | none => b

/-- JS `a || b` for two numbers (`0` is falsy). -/
def jsOrNat (a b : Nat) : Nat := if a = 0 then b else a

/-! ## The proleptic Gregorian calendar (JS `Date` day arithmetic)

Day numbers count days from 0000-03-01 (so day arithmetic, weekday and
leap-year handling agree with ECMAScript's `MakeDay`/`TimeClip` on the
dates the program manipulates; years are `≥ 1` throughout). -/

/-- Days before the shifted (March-started) year `y`:
`DB y = 365*y + y/4 - y/100 + y/400`. -/
def DB (y : Nat) : Nat := 365 * y + y / 4 - y / 100 + y / 400

/-- Day-of-shifted-year of the first day of calendar month `m` (March = 0). -/
def doyTable (m : Nat) : Nat :=
  match m with
  | 1 => 306 | 2 => 337 | 3 => 0 | 4 => 31 | 5 => 61 | 6 => 92
  | 7 => 122 | 8 => 153 | 9 => 184 | 10 => 214 | 11 => 245 | 12 => 275
  | _ => 0

/-- Calendar date `(y, m, d)` to day number (linear in `d`, exactly like
ECMAScript `MakeDay`, so out-of-range days overflow into the next month). -/
def toDays (y m d : Nat) : Nat :=
  DB (if m ≤ 2 then y - 1 else y) + doyTable m + (d - 1)

/-- First candidate for the shifted year containing day `n`. -/
def yearGuess (n : Nat) : Nat := 400 * n / 146097

/-- The shifted (March-started) year containing day `n`. -/
def shiftedYear (n : Nat) : Nat :=
  if DB (yearGuess n + 1) ≤ n then yearGuess n + 1 else yearGuess n

/-- Shifted month index (March = 0) of day `doy` of a shifted year. -/
def mpOf (doy : Nat) : Nat := (5 * doy + 2) / 153

/-- Day-of-month (1-based) of day `doy` of a shifted year. -/
def dayOfMp (doy : Nat) : Nat := doy - (153 * mpOf doy + 2) / 5 + 1

/-- Calendar date of day `doy` (0-based) of the shifted year `y`. -/
def monthDayOf (y doy : Nat) : Nat × Nat × Nat :=
  if mpOf doy < 10 then (y, mpOf doy + 3, dayOfMp doy)
  else (y + 1, mpOf doy - 9, dayOfMp doy)

/-- Day number to calendar date `(y, m, d)`. -/
def fromDays (n : Nat) : Nat × Nat × Nat :=
  monthDayOf (shiftedYear n) (n - DB (shiftedYear n))

/-- `Date.prototype.getDay` (0 = Sunday) of a day number. -/
def jsGetDay (n : Nat) : Nat := (n + 3) % 7

/-- An instant: a day number plus milliseconds within the day. -/
structure Instant where
  days : Nat
  tod : Nat
deriving DecidableEq, Repr

/-- `dateMidnight < now` on timestamps (a parsed date-only value is
midnight of its day). -/
def ltInstant (n : Nat) (now : Instant) : Bool :=
  n < now.days || (n = now.days && 0 < now.tod)

/-- Decimal digits of a natural number. -/
def natDigits (n : Nat) : Str := (Nat.toDigits 10 n)

/-- Left-pad with zeros to width `w`. -/
def padZeros (w : Nat) (s : Str) : Str :=
  List.replicate (w - s.length) '0' ++ s

/-- `toISOString().split('T')[0]` of a calendar date: `YYYY-MM-DD`. -/
def formatYMD (ymd : Nat × Nat × Nat) : Str :=
  padZeros 4 (natDigits ymd.1) ++ '-' ::
    (padZeros 2 (natDigits ymd.2.1) ++ '-' :: padZeros 2 (natDigits ymd.2.2))

/-! ### Calendar lemmas -/

theorem DB_step_lower (a : Nat) : DB a + 365 ≤ DB (a + 1) := by
  unfold DB; omega

theorem DB_step_upper (a : Nat) : DB (a + 1) ≤ DB a + 366 := by
  unfold DB; omega

theorem DB_mono : ∀ {a b : Nat}, a ≤ b → DB a ≤ DB b := by
  intro a b h
  induction b with
  | zero => simp_all
  | succ b ih =>
    rcases Nat.lt_or_ge a (b + 1) with h' | h'
    · have := ih (by omega)
      have := DB_step_lower b
      omega
    · have : a = b + 1 := by omega
      simp [this]

theorem DB_lt_of_lt {a b : Nat} (h : a < b) : DB a + 365 ≤ DB b := by
  have h1 := DB_step_lower a
  have h2 := DB_mono (show a + 1 ≤ b by omega)
  omega

theorem DB_yearGuess_le (n : Nat) : DB (yearGuess n) ≤ n := by
  have h : 146097 * yearGuess n ≤ 400 * n := by
    unfold yearGuess; omega
  unfold DB
  generalize yearGuess n = g at h ⊢
  omega

theorem lt_DB_yearGuess_add_two (n : Nat) : n < DB (yearGuess n + 2) := by
  have h : 400 * n < 146097 * (yearGuess n + 1) := by
    unfold yearGuess; omega
  unfold DB
  generalize yearGuess n = g at h ⊢
  omega

theorem shiftedYear_bracket (n : Nat) :
    DB (shiftedYear n) ≤ n ∧ n < DB (shiftedYear n + 1) := by
  have h1 := DB_yearGuess_le n
  have h2 := lt_DB_yearGuess_add_two n
  unfold shiftedYear
  split
  · exact ⟨by assumption, h2⟩
  · exact ⟨h1, by omega⟩

theorem shiftedYear_unique {a n : Nat} (h1 : DB a ≤ n) (h2 : n < DB (a + 1)) :
    shiftedYear n = a := by
  have hb := shiftedYear_bracket n
  rcases Nat.lt_trichotomy (shiftedYear n) a with h | h | h
  · have := DB_mono (show shiftedYear n + 1 ≤ a by omega)
    omega
  · exact h
  · have := DB_mono (show a + 1 ≤ shiftedYear n by omega)
    omega

theorem doy_lt (n : Nat) : n - DB (shiftedYear n) < 366 := by
  have hb := shiftedYear_bracket n
  have := DB_step_upper (shiftedYear n)
  omega

/-- The division characterizing `mpOf`. -/
theorem mpOf_char (doy : Nat) :
    153 * mpOf doy ≤ 5 * doy + 2 ∧ 5 * doy + 2 < 153 * (mpOf doy + 1) := by
  unfold mpOf; omega

/-- The calendar year computed by `monthDayOf`. -/
theorem monthDayOf_year (y doy : Nat) :
    (monthDayOf y doy).1 = if doy < 306 then y else y + 1 := by
  have h := mpOf_char doy
  unfold monthDayOf
  split_ifs <;> simp <;> omega

/-- Month and day components of `monthDayOf` are in calendar range. -/
theorem monthDayOf_md_bounds {y doy : Nat} (h : doy < 366) :
    1 ≤ (monthDayOf y doy).2.1 ∧ (monthDayOf y doy).2.1 ≤ 12 ∧
      1 ≤ (monthDayOf y doy).2.2 ∧ (monthDayOf y doy).2.2 ≤ 31 := by
  have hc := mpOf_char doy
  unfold monthDayOf dayOfMp
  generalize hm : mpOf doy = mp at *
  split_ifs <;> simp <;> omega

/-- Month-table bounds. -/
theorem doyTable_le_of_ge3 {m : Nat} (h3 : 3 ≤ m) (h12 : m ≤ 12) :
    doyTable m ≤ 275 := by
  interval_cases m <;> simp [doyTable]

theorem doyTable_janfeb {m : Nat} (h1 : 1 ≤ m) (h2 : m ≤ 2) :
    306 ≤ doyTable m ∧ doyTable m ≤ 337 := by
  interval_cases m <;> simp [doyTable]

/-- `toDays` inverts `monthDayOf`. -/
theorem toDays_monthDayOf {y doy : Nat} (h : doy < 366) :
    toDays (monthDayOf y doy).1 (monthDayOf y doy).2.1 (monthDayOf y doy).2.2 =
      DB y + doy := by
  have hc := mpOf_char doy
  have hmp : mpOf doy ≤ 11 := by unfold mpOf; omega
  unfold monthDayOf dayOfMp toDays
  generalize hm : mpOf doy = mp at *
  interval_cases mp <;> simp [doyTable] <;> omega

/-- Month and day components returned by `fromDays` are in calendar range. -/
theorem fromDays_md_bounds (n : Nat) :
    1 ≤ (fromDays n).2.1 ∧ (fromDays n).2.1 ≤ 12 ∧
      1 ≤ (fromDays n).2.2 ∧ (fromDays n).2.2 ≤ 31 := by
  unfold fromDays
  exact monthDayOf_md_bounds (doy_lt n)

/-- `fromDays` is a right inverse of `toDays`. -/
theorem toDays_fromDays (n : Nat) :
    toDays (fromDays n).1 (fromDays n).2.1 (fromDays n).2.2 = n := by
  have hb := shiftedYear_bracket n
  unfold fromDays
  rw [toDays_monthDayOf (doy_lt n)]
  omega

/-- Any date with in-range month and day stays within days 0..305+366 of
its year: upper bound on the day number. -/
theorem toDays_ub {y m d : Nat} (hy : 1 ≤ y) (hm1 : 1 ≤ m) (hm2 : m ≤ 12)
    (hd2 : d ≤ 31) : toDays y m d ≤ DB y + 305 := by
  unfold toDays
  split_ifs with h
  · have := doyTable_janfeb hm1 h
    have := DB_lt_of_lt (a := y - 1) (b := y) (by omega)
    omega
  · have := doyTable_le_of_ge3 (by omega) hm2
    omega

/-- Setting a year `y + 1` on in-range month/day lands strictly after every
date of year `y`. -/
theorem toDays_next_year_lb {y m d : Nat} (hm1 : 1 ≤ m) (hm2 : m ≤ 12)
    (hd1 : 1 ≤ d) : DB y + 306 ≤ toDays (y + 1) m d ∨
      DB (y + 1) ≤ toDays (y + 1) m d := by
  unfold toDays
  split_ifs with h
  · left
    have := doyTable_janfeb hm1 h
    simp only [Nat.add_sub_cancel]
    omega
  · right
    omega

/-- The year of `fromDays (toDays y m d)` for an in-range month/day is `y`. -/
theorem fromDays_toDays_year {y m d : Nat} (hy : 1 ≤ y) (hm1 : 1 ≤ m)
    (hm2 : m ≤ 12) (hd1 : 1 ≤ d) (hd2 : d ≤ 31) :
    (fromDays (toDays y m d)).1 = y := by
  unfold fromDays
  rw [monthDayOf_year]
  by_cases h2 : m ≤ 2
  · have hc := doyTable_janfeb hm1 h2
    have hstep1 := DB_lt_of_lt (a := y - 1) (b := y) (by omega)
    have hstep2 := DB_step_upper (y - 1)
    rw [show y - 1 + 1 = y by omega] at hstep2
    have hDBy1 : DB (y - 1 + 1) = DB y := by rw [show y - 1 + 1 = y by omega]
    have hystep := DB_step_lower y
    have hn : toDays y m d = DB (y - 1) + doyTable m + (d - 1) := by
      unfold toDays; simp [h2]
    rcases Nat.lt_or_ge (toDays y m d) (DB y) with hlt | hge
    · have hsy : shiftedYear (toDays y m d) = y - 1 :=
        shiftedYear_unique (by omega) (by omega)
      rw [hsy]
      have hnot : ¬ toDays y m d - DB (y - 1) < 306 := by omega
      simp only [hnot, if_false]
      omega
    · have hsy : shiftedYear (toDays y m d) = y :=
        shiftedYear_unique hge (by omega)
      rw [hsy]
      have hyes : toDays y m d - DB y < 306 := by omega
      simp only [hyes, if_true]
  · have hc1 := doyTable_le_of_ge3 (by omega) hm2
    have hystep := DB_step_lower y
    have hn : toDays y m d = DB y + doyTable m + (d - 1) := by
      unfold toDays; simp [h2]
    have hsy : shiftedYear (toDays y m d) = y :=
      shiftedYear_unique (by omega) (by omega)
    rw [hsy]
    have hyes : toDays y m d - DB y < 306 := by omega
    simp only [hyes, if_true]

/-! ## Registry data model (`src/lib/asana-registry.ts`) -/

structure Person where
  email : Str
  name : Str
  aliases : List Str
  role : Str
  department : Str
  active : Bool
deriving DecidableEq, Repr

structure PrimaryContact where
  name : Str
  email : Str
  role : Str
deriving DecidableEq, Repr

structure EmailPolicy where
  always_cc : List Str
  bcc_never : Bool
  signature_hint : Str
deriving DecidableEq, Repr

structure TaskGuidance where
  title_rules : List Str
  notes_template : Str
deriving DecidableEq, Repr

structure Sla where
  default_due_days_from_now : Nat
  escalation_contact : Str
deriving DecidableEq, Repr

/-- `{ when: { contains_any } }` of a project rule. -/
structure RuleWhen where
  contains_any : List Str
deriving DecidableEq, Repr

/-- `{ then: { append_note } }` of a project rule. -/
structure RuleThen where
  append_note : Str
deriving DecidableEq, Repr

/-- `{ when: {...}, then: {...} }` conditional note rule. -/
structure ProjectRule where
  whenCond : RuleWhen
  thenAct : RuleThen
deriving DecidableEq, Repr

structure ProjectContext where
  summary : Str
  primary_contact : Option PrimaryContact
  email_policy : Option EmailPolicy
  task_guidance : Option TaskGuidance
  sla : Option Sla
  rules : Option (List ProjectRule)
deriving DecidableEq, Repr

inductive ProjectType
  | personal | departmental | initiative | deal | client
deriving DecidableEq, Repr

structure Stakeholders where
  primary : List Str
  secondary : List Str
deriving DecidableEq, Repr

structure ProjSection where
  name : Str
  id : Str
deriving DecidableEq, Repr

structure ProjectDefaults where
  section_id : Option Str
  due_days_from_now : Nat
deriving DecidableEq, Repr

inductive CustomFieldType
  | enumField | textField | numberField
deriving DecidableEq, Repr

structure CustomField where
  name : Str
  id : Str
  fieldType : CustomFieldType
  value_hints : List Str
deriving DecidableEq, Repr

structure Project where
  id : Str
  name : Str
  aliases : List Str
  projType : ProjectType
  description : Str
  owners : List Str
  stakeholders : Stakeholders
  allowed_assignees : List Str
  sections : List ProjSection
  defaults : ProjectDefaults
  custom_fields : List CustomField
  routing_keywords : List Str
  notes_guidance : Str
  context : ProjectContext
  active : Bool
deriving DecidableEq, Repr

structure Template where
  titlePre : Str
  description_template : Str
deriving DecidableEq, Repr

inductive AskOrReject
  | ask | reject
deriving DecidableEq, Repr

structure Policy where
  allow_general_chat : Bool
  one_task_per_message : Bool
  on_unknown_project : AskOrReject
  on_unknown_person : AskOrReject
deriving DecidableEq, Repr

structure RegistryDefaults where
  default_project_id : Option Str
  default_assignee_email : Str
  default_due_days_from_now : Nat
deriving DecidableEq, Repr

structure RegistryMeta where
  workspace_gid : Str
  timezone : Str
  date_format : Str
deriving DecidableEq, Repr

/-- The validated `Registry` shape (the TypeScript interface). -/
structure Registry where
  version : Str
  meta : RegistryMeta
  policy : Policy
  defaults : RegistryDefaults
  people : List Person
  projects : List Project
  templates : List (Str × Template)
deriving DecidableEq, Repr

/-! ## Registry loading (`loadRegistry`, lines 112-155)

`JSON.parse` can produce a value that does not actually satisfy the
`Registry` interface (the `as Registry` cast is unchecked), so the raw
parsed value is modelled with the four validated top-level fields
optional.  The module-level `registryCache` is threaded explicitly. -/

structure RawRegistry where
  version : Option Str
  meta : Option RegistryMeta
  policy : Option Policy
  defaults : Option RegistryDefaults
  people : Option (List Person)
  projects : Option (List Project)
  templates : Option (List (Str × Template))
deriving DecidableEq, Repr

/-- What reading + `JSON.parse`-ing the registry file can produce. -/
inductive LoadSource
  /-- `readFileSync` or `JSON.parse` throws (missing file, bad JSON). -/
  | readError
  /-- the file parses to a falsy value (`null`), so the subsequent field
  access throws. -/
  | parsedNull
  /-- the file parses to an object (possibly missing required fields). -/
  | parsedObj (raw : RawRegistry)
deriving DecidableEq, Repr

/-- The `// Return a minimal valid registry as fallback` literal
(lines 132-153). -/
def fallbackRegistry : RawRegistry :=
  { version := some ('1' :: '.' :: ['0'])
    meta := some { workspace_gid := [], timezone := "America/New_York".toList
                   date_format := "YYYY-MM-DD".toList }
    policy := some { allow_general_chat := true, one_task_per_message := true
                     on_unknown_project := .reject, on_unknown_person := .reject }
    defaults := some { default_project_id := none, default_assignee_email := []
                       default_due_days_from_now := 3 }
    people := some []
    projects := some []
    templates := some [] }

/-- The `// Validate required fields` check (line 124): truthiness of
`version`, `meta`, `people`, `projects`. -/
def validRegistryFields (raw : RawRegistry) : Bool :=
  (match raw.version with
   | some s => !(s = [])
   | none => false) &&
  raw.meta.isSome && raw.people.isSome && raw.projects.isSome

/-- One call of `loadRegistry`, explicit in the `registryCache` module
state: returns the result and the new cache.  Note that the parsed value
is assigned to `registryCache` *before* the required-fields validation
runs, so an invalid parsed object poisons the cache. -/
def loadRegistry (cache : Option RawRegistry) (source : LoadSource) :
    RawRegistry × Option RawRegistry :=
  match cache with
  | some r => (r, some r)
  | none =>
    match source with
    | .readError => (fallbackRegistry, none)
    | .parsedNull => (fallbackRegistry, none)
    | .parsedObj raw =>
      if validRegistryFields raw then (raw, some raw)
      else (fallbackRegistry, some raw)

/-! ## Alias resolution (`resolvePersonByAlias`, `resolveProjectByAlias`) -/

/-- The `for (const person of registry.people)` loop of
`resolvePersonByAlias` (lines 164-187). -/
def findPerson : List Person → Str → Option Person
  | [], _ => none
  | person :: rest, ni =>
    if person.active = false then findPerson rest ni
    else if lowerStr person.email = ni then some person
    else if person.aliases.any (fun a => lowerStr a == ni) then some person
    else if lowerStr person.name = ni then some person
    else if (splitSpace (lowerStr person.name)).any (fun part => part == ni) then
      some person
    else findPerson rest ni

/-- `resolvePersonByAlias` (lines 160-190); the registry is passed
explicitly (the source reads it through the cached `loadRegistry()`). -/
def resolvePersonByAlias (registry : Registry) (input : Str) : Option Person :=
  findPerson registry.people (trimStr (lowerStr input))

/-- The `for (const project of registry.projects)` loop of
`resolveProjectByAlias` (lines 199-219). -/
def findProject : List Project → Str → Option Project
  | [], _ => none
  | project :: rest, ni =>
    if project.active = false then findProject rest ni
    else if lowerStr project.name = ni then some project
    else if project.aliases.any (fun a => lowerStr a == ni) then some project
    else if project.routing_keywords.any (fun kw => includesStr ni (lowerStr kw)) then
      some project
    else findProject rest ni

/-- `resolveProjectByAlias` (lines 195-222). -/
def resolveProjectByAlias (registry : Registry) (input : Str) : Option Project :=
  findProject registry.projects (trimStr (lowerStr input))

/-- `getAvailableProjects` (lines 227-232). -/
def getAvailableProjects (registry : Registry) : List Str :=
  (registry.projects.filter (·.active)).map
    (fun p => p.name ++ " (".toList ++ jsOrStr p.aliases.head? "no alias".toList
      ++ ")".toList)

/-- `getAvailablePeople` (lines 237-242). -/
def getAvailablePeople (registry : Registry) : List Str :=
  (registry.people.filter (·.active)).map
    (fun p => p.name ++ " (".toList ++ jsOrStr p.aliases.head? p.email
      ++ ")".toList)

/-- `isAssigneeAllowedForProject` (lines 247-249): exact membership. -/
def isAssigneeAllowedForProject (personEmail : Str) (project : Project) : Bool :=
  project.allowed_assignees.contains personEmail

/-- `getAllowedAssigneesForProject` (lines 254-260). -/
def getAllowedAssigneesForProject (registry : Registry) (project : Project) :
    List Str :=
  project.allowed_assignees.map (fun email =>
    match registry.people.find? (fun p => p.email == email) with
    | some person =>
      person.name ++ " (".toList ++ jsOrStr person.aliases.head? email ++ ")".toList
    | none => email)

/-! ## Shared demo registry pieces (used by concrete witnesses) -/

def demoMeta : RegistryMeta :=
  { workspace_gid := [], timezone := [], date_format := [] }

def demoPolicy : Policy :=
  { allow_general_chat := true, one_task_per_message := true
    on_unknown_project := .ask, on_unknown_person := .ask }

def demoDefaults : RegistryDefaults :=
  { default_project_id := none, default_assignee_email := []
    default_due_days_from_now := 3 }

def demoRegistry (people : List Person) (projects : List Project) : Registry :=
  { version := "1".toList, meta := demoMeta, policy := demoPolicy
    defaults := demoDefaults, people := people, projects := projects
    templates := [] }

/-! ## Claim C2: fallback on registry load failure -/

/-- A parsed JSON object (`{}`) with every required field missing. -/
def emptyRawRegistry : RawRegistry :=
  { version := none, meta := none, policy := none, defaults := none
    people := none, projects := none, templates := none }

/-- Claim C2 (code bug): for a source that parses as JSON but lacks the
required top-level fields, the FIRST `loadRegistry` call returns the
safe-default fallback registry, but it has already cached the invalid
parsed object, so the SECOND call returns the invalid registry instead of
the safe default — the fallback does not hold on every call. -/
theorem loadRegistry_cache_poisoning :
    loadRegistry none (.parsedObj emptyRawRegistry)
        = (fallbackRegistry, some emptyRawRegistry) ∧
      loadRegistry (loadRegistry none (.parsedObj emptyRawRegistry)).2
          (.parsedObj emptyRawRegistry)
        = (emptyRawRegistry, some emptyRawRegistry) ∧
      emptyRawRegistry ≠ fallbackRegistry := by
  refine ⟨rfl, rfl, ?_⟩
  decide

/-! ## Claim C4: person resolution order -/

/-- The disjunction of the four per-person match criteria of
`resolvePersonByAlias` (exact email, exact alias, exact full name,
whitespace-delimited name token). -/
def personMatches (p : Person) (ni : Str) : Bool :=
  (lowerStr p.email == ni) || p.aliases.any (fun a => lowerStr a == ni) ||
    (lowerStr p.name == ni) ||
    (splitSpace (lowerStr p.name)).any (fun part => part == ni)

theorem findPerson_eq_find (l : List Person) (ni : Str) :
    findPerson l ni = l.find? (fun p => p.active && personMatches p ni) := by
  induction l with
  | nil => rfl
  | cons p rest ih =>
    unfold findPerson
    rw [List.find?_cons]
    cases hact : p.active with
    | false => simp [ih]
    | true =>
      cases hpm : personMatches p ni with
      | true => split_ifs <;> simp_all [personMatches]
      | false => split_ifs <;> simp_all [personMatches, ih]

/-- Claim C4 (amended): person resolution is person-major, not
criterion-major: the registry list is scanned in order and the FIRST
active person matching ANY of the four criteria (email, alias, full name,
name token — case-insensitively, on the trimmed lowercased input) is
returned; inactive people never match. -/
theorem resolvePerson_first_active_match (registry : Registry) (input : Str) :
    resolvePersonByAlias registry input =
      registry.people.find?
        (fun p => p.active && personMatches p (trimStr (lowerStr input))) :=
  findPerson_eq_find registry.people (trimStr (lowerStr input))

/-- An earlier person whose NAME TOKEN matches the probe input. -/
def cxPersonBobJones : Person :=
  { email := "bj@example.com".toList, name := "Bob Jones".toList
    aliases := [], role := [], department := [], active := true }

/-- A later person whose exact EMAIL matches the probe input. -/
def cxPersonBobEmail : Person :=
  { email := "bob".toList, name := "Person Two".toList
    aliases := [], role := [], department := [], active := true }

/-- Claim C4 counterexample: with people `[Bob Jones, (email "bob")]`,
input `"bob"` is the exact email of the second person, yet
`resolvePersonByAlias` returns the first person (by name-token match):
the email criterion is NOT tried across the whole registry first, so the
claimed criterion-major priority order is false. -/
theorem resolvePerson_criterion_order_counterexample :
    resolvePersonByAlias (demoRegistry [cxPersonBobJones, cxPersonBobEmail] [])
        "bob".toList = some cxPersonBobJones ∧
      lowerStr cxPersonBobEmail.email = trimStr (lowerStr "bob".toList) ∧
      cxPersonBobEmail.active = true ∧
      cxPersonBobJones ≠ cxPersonBobEmail := by
  refine ⟨rfl, rfl, rfl, ?_⟩
  decide

/-! ## Task client (`src/lib/asana.ts`) -/

/-- `AsanaAPIError(message, status?, retryAfter?)`. -/
structure AsanaAPIError where
  message : Str
  status : Option Nat
  retryAfter : Option Nat
deriving DecidableEq, Repr

/-- Model of an HTTP response to the task-creation POST. -/
structure CreateResponse where
  status : Nat
  /-- `Retry-After` header in seconds; `none` models a missing header, for
  which the code substitutes `'1'`. -/
  retryAfterHeader : Option Nat
  /-- response body text (quoted in error messages) -/
  bodyText : Str
  /-- `data.gid` of the parsed JSON body (`none` = missing) -/
  gid : Option Str
deriving DecidableEq, Repr

/-- Model of an HTTP response to the permalink GET. -/
structure PermalinkResponse where
  status : Nat
  bodyText : Str
  permalink_url : Option Str
  assigneeName : Option Str
  assigneeEmail : Option Str
deriving DecidableEq, Repr

/-- Environment of the client: whether `ASANA_ACCESS_TOKEN` is configured,
and the response the service gives to the k-th create / k-th permalink
network call. -/
structure AsanaEnv where
  tokenPresent : Bool
  createResp : Nat → CreateResponse
  permaResp : Nat → PermalinkResponse

/-- `response.ok` (status in the 200-299 range). -/
def httpOk (status : Nat) : Bool := 200 ≤ status && status < 300

/-- JS truthiness of an optional string. -/
def jsTruthy (o : Option Str) : Bool :=
  match o with
  | some s => !(s = [])
  | none => false

/-- `a || b` on two optional strings. -/
def jsOrOpt (a b : Option Str) : Option Str := if jsTruthy a then a else b

/-- `createAsanaTask` (lines 42-86) acting on the k-th create response. -/
def createAsanaTask (env : AsanaEnv) (k : Nat) : Except AsanaAPIError Str :=
  if env.tokenPresent = false then
    .error { message := "ASANA_ACCESS_TOKEN not configured".toList
             status := none, retryAfter := none }
  else if (env.createResp k).status = 429 then
    .error { message := "Rate limit exceeded".toList, status := some 429
             retryAfter := some ((env.createResp k).retryAfterHeader.getD 1) }
  else if httpOk (env.createResp k).status = false then
    .error { message := "Asana API error ".toList
               ++ natDigits (env.createResp k).status ++ ": ".toList
               ++ (env.createResp k).bodyText
             status := some (env.createResp k).status, retryAfter := none }
  else
    match (env.createResp k).gid with
    | some gid =>
      if gid = [] then
        .error { message := "No task GID returned from Asana".toList
                 status := none, retryAfter := none }
      else .ok gid
    | none =>
      .error { message := "No task GID returned from Asana".toList
               status := none, retryAfter := none }

/-- The payload returned by `getTaskPermalink`. -/
structure PermalinkInfo where
  permalink : Str
  assigneeName : Option Str
  assigneeEmail : Option Str
deriving DecidableEq, Repr

/-- `getTaskPermalink` (lines 91-130) acting on the k-th permalink
response.  Note there is NO special handling of 429 here: a rate-limited
permalink fetch surfaces as a generic `AsanaAPIError` with status 429. -/
def getTaskPermalink (env : AsanaEnv) (k : Nat) : Except AsanaAPIError PermalinkInfo :=
  if env.tokenPresent = false then
    .error { message := "ASANA_ACCESS_TOKEN not configured".toList
             status := none, retryAfter := none }
  else if httpOk (env.permaResp k).status = false then
    .error { message := "Failed to get task details ".toList
               ++ natDigits (env.permaResp k).status ++ ": ".toList
               ++ (env.permaResp k).bodyText
             status := some (env.permaResp k).status, retryAfter := none }
  else if jsTruthy (env.permaResp k).permalink_url = false then
    .error { message := "No permalink returned from Asana".toList
             status := none, retryAfter := none }
  else
    .ok { permalink := (env.permaResp k).permalink_url.getD []
          assigneeName := (env.permaResp k).assigneeName
          assigneeEmail := (env.permaResp k).assigneeEmail }

/-- The success value of `createTaskWithRetry`. -/
structure TaskCreated where
  gid : Str
  permalink : Str
  assigneeName : Option Str
deriving DecidableEq, Repr

/-- The `throw new AsanaAPIError('Max retries exceeded')` value. -/
def maxRetriesError : AsanaAPIError :=
  { message := "Max retries exceeded".toList, status := none, retryAfter := none }

/-- One run of `createTaskWithRetry` together with an account of its
observable effects: how many create / permalink network calls it made, how
many create calls SUCCEEDED (= tasks actually created in the service), and
the sleeps it performed (milliseconds). -/
structure RetryOut where
  result : Except AsanaAPIError TaskCreated
  createCalls : Nat
  permaCalls : Nat
  successfulCreates : Nat
  sleepsMs : List Nat
deriving Repr

/-- `(error.retryAfter || 1) + 0.5` seconds, in milliseconds. -/
def waitMs (e : AsanaAPIError) : Nat := jsOrNum e.retryAfter 1 * 1000 + 500

/-- The `while (retries < maxRetries)` loop of `createTaskWithRetry`
(lines 141-164).  `fuel = maxRetries - retries` is the number of remaining
permitted iterations; the catch-branch condition
`retries < maxRetries - 1` is exactly `1 ≤ fuel - 1`.  `ci`/`pj` index the
next create / permalink response. -/
def createTaskWithRetryAux (env : AsanaEnv) : Nat → Nat → Nat → RetryOut
  | 0, _, _ =>
    { result := .error maxRetriesError, createCalls := 0, permaCalls := 0
      successfulCreates := 0, sleepsMs := [] }
  | fuel + 1, ci, pj =>
    let cFetch := if env.tokenPresent then 1 else 0
    match createAsanaTask env ci with
    | .ok gid =>
      match getTaskPermalink env pj with
      | .ok info =>
        { result := .ok { gid := gid, permalink := info.permalink
                          assigneeName := jsOrOpt info.assigneeName info.assigneeEmail }
          createCalls := cFetch, permaCalls := 1, successfulCreates := 1
          sleepsMs := [] }
      | .error e =>
        if e.status = some 429 ∧ 1 ≤ fuel then
          let out := createTaskWithRetryAux env fuel (ci + cFetch) (pj + 1)
          { result := out.result, createCalls := cFetch + out.createCalls
            permaCalls := 1 + out.permaCalls
            successfulCreates := 1 + out.successfulCreates
            sleepsMs := waitMs e :: out.sleepsMs }
        else
          { result := .error e, createCalls := cFetch, permaCalls := 1
            successfulCreates := 1, sleepsMs := [] }
    | .error e =>
      if e.status = some 429 ∧ 1 ≤ fuel then
        let out := createTaskWithRetryAux env fuel (ci + cFetch) pj
        { result := out.result, createCalls := cFetch + out.createCalls
          permaCalls := out.permaCalls
          successfulCreates := out.successfulCreates
          sleepsMs := waitMs e :: out.sleepsMs }
      else
        { result := .error e, createCalls := cFetch, permaCalls := 0
          successfulCreates := 0, sleepsMs := [] }

/-- `createTaskWithRetry(task, maxRetries = 2)` (lines 135-167). -/
def createTaskWithRetry (env : AsanaEnv) (maxRetries : Int) : RetryOut :=
  createTaskWithRetryAux env maxRetries.toNat 0 0

/-! ## Claim C10: non-positive retry budget -/

/-- Claim C10: with `maxRetries ≤ 0` the `while` loop is never entered, so
`createTaskWithRetry` performs no create or permalink network call and
immediately raises the distinguished max-retries-exceeded error. -/
theorem createTaskWithRetry_nonpositive (env : AsanaEnv) (maxRetries : Int)
    (h : maxRetries ≤ 0) :
    createTaskWithRetry env maxRetries =
      { result := .error maxRetriesError, createCalls := 0, permaCalls := 0
        successfulCreates := 0, sleepsMs := [] } := by
  unfold createTaskWithRetry
  rw [show maxRetries.toNat = 0 by omega]
  rfl

/-- An environment in which every create and permalink call succeeds. -/
def happyEnv : AsanaEnv :=
  { tokenPresent := true
    createResp := fun _ =>
      { status := 200, retryAfterHeader := none, bodyText := []
        gid := some "12345".toList }
    permaResp := fun _ =>
      { status := 200, bodyText := []
        permalink_url := some "https://app.asana.com/t/12345".toList
        assigneeName := some "Adi".toList, assigneeEmail := none } }

theorem createTaskWithRetry_nonpositive_witness :
    createTaskWithRetry happyEnv 0 =
      { result := .error maxRetriesError, createCalls := 0, permaCalls := 0
        successfulCreates := 0, sleepsMs := [] } :=
  createTaskWithRetry_nonpositive happyEnv 0 (by decide)

/-! ## Claim C3: exhausting the retry budget on rate limits -/

/-- An environment in which every create call is answered 429
(`Retry-After: 3`). -/
def always429Env : AsanaEnv :=
  { tokenPresent := true
    createResp := fun _ =>
      { status := 429, retryAfterHeader := some 3, bodyText := [], gid := none }
    permaResp := fun _ =>
      { status := 200, bodyText := [], permalink_url := some "u".toList
        assigneeName := none, assigneeEmail := none } }

/-- Claim C3 (code bug, evaluated at the failing input): with
`maxRetries = 2` and a 429 on every create attempt, the loop sleeps once
(3.5 s) and then, on the last attempt, RETHROWS the underlying 429
`AsanaAPIError` — it does not raise the distinguished
`'Max retries exceeded'` error (that throw is reachable only when
`maxRetries ≤ 0`). -/
theorem createTaskWithRetry_exhaustion_rethrows_429 :
    (createTaskWithRetry always429Env 2).result =
        .error { message := "Rate limit exceeded".toList, status := some 429
                 retryAfter := some 3 } ∧
      (createTaskWithRetry always429Env 2).sleepsMs = [3500] ∧
      (createTaskWithRetry always429Env 2).createCalls = 2 ∧
      ({ message := "Rate limit exceeded".toList, status := some 429
         retryAfter := some 3 } : AsanaAPIError) ≠ maxRetriesError := by
  refine ⟨rfl, rfl, rfl, ?_⟩
  decide

/-! ## Claim C1: one task per successful invocation -/

/-- A permalink-fetch error carries status 429 only when the permalink
HTTP response itself had status 429. -/
theorem getTaskPermalink_429_source {env : AsanaEnv} {k : Nat} {e : AsanaAPIError}
    (he : getTaskPermalink env k = .error e) (hs : e.status = some 429) :
    (env.permaResp k).status = 429 := by
  unfold getTaskPermalink at he
  split_ifs at he <;> simp only [Except.error.injEq] at he <;>
    subst he <;> simp_all

theorem createTaskWithRetryAux_success_single_create (env : AsanaEnv)
    (h429 : ∀ k, (env.permaResp k).status ≠ 429) :
    ∀ fuel ci pj, (createTaskWithRetryAux env fuel ci pj).result.isOk = true →
      (createTaskWithRetryAux env fuel ci pj).successfulCreates = 1 := by
  intro fuel
  induction fuel with
  | zero => intro ci pj h; simp [createTaskWithRetryAux, Except.isOk, Except.toBool] at h
  | succ fuel ih =>
    intro ci pj h
    unfold createTaskWithRetryAux at h ⊢
    cases hc : createAsanaTask env ci with
    | ok gid =>
      simp only [hc] at h ⊢
      cases hp : getTaskPermalink env pj with
      | ok info => simp [hp]
      | error e =>
        simp only [hp] at h ⊢
        by_cases hcond : e.status = some 429 ∧ 1 ≤ fuel
        · exact absurd (getTaskPermalink_429_source hp hcond.1) (h429 pj)
        · rw [if_neg hcond]
    | error e =>
      simp only [hc] at h ⊢
      by_cases hcond : e.status = some 429 ∧ 1 ≤ fuel
      · rw [if_pos hcond] at h ⊢
        exact ih _ _ h
      · rw [if_neg hcond] at h
        simp [Except.isOk, Except.toBool] at h

/-- Claim C1 (amended): provided every rate-limit arises from the CREATE
call itself (the permalink fetch is never answered 429), any invocation of
`createTaskWithRetry` that returns success has performed exactly one
SUCCESSFUL create call, i.e. created exactly one task (earlier attempts,
if any, were 429-failed creates that created nothing).  Without that
proviso the claim fails, see the counterexample. -/
theorem createTaskWithRetry_success_single_create (env : AsanaEnv)
    (maxRetries : Int) (h429 : ∀ k, (env.permaResp k).status ≠ 429)
    (hok : (createTaskWithRetry env maxRetries).result.isOk = true) :
    (createTaskWithRetry env maxRetries).successfulCreates = 1 :=
  createTaskWithRetryAux_success_single_create env h429 maxRetries.toNat 0 0 hok

theorem createTaskWithRetry_success_single_create_witness :
    (createTaskWithRetry happyEnv 2).successfulCreates = 1 :=
  createTaskWithRetry_success_single_create happyEnv 2
    (fun k => by simp [happyEnv]) (by decide)

/-- An environment in which creates always succeed but the FIRST permalink
fetch is rate-limited (429). -/
def perma429Env : AsanaEnv :=
  { tokenPresent := true
    createResp := fun _ =>
      { status := 200, retryAfterHeader := none, bodyText := []
        gid := some "g1".toList }
    permaResp := fun k =>
      if k = 0 then
        { status := 429, bodyText := [], permalink_url := none
          assigneeName := none, assigneeEmail := none }
      else
        { status := 200, bodyText := [], permalink_url := some "u2".toList
          assigneeName := none, assigneeEmail := none } }

/-- Claim C1 counterexample: when the first permalink fetch is answered
429, the catch branch retries the WHOLE create step, so an execution path
ending in success performs the task-creation network call twice — and both
creates succeed, so two tasks are created by one successful invocation. -/
theorem createTaskWithRetry_duplicate_create_counterexample :
    (createTaskWithRetry perma429Env 2).result =
        .ok { gid := "g1".toList, permalink := "u2".toList, assigneeName := none } ∧
      (createTaskWithRetry perma429Env 2).createCalls = 2 ∧
      (createTaskWithRetry perma429Env 2).successfulCreates = 2 := by
  refine ⟨rfl, rfl, rfl⟩

/-! ## Due-date normalization (`formatDueDate`, tool module lines 19-77) -/

/-- `parseInt(ds, 10)` on a digit run. -/
def digitsToNat (ds : Str) : Nat :=
  ds.foldl (fun acc c => acc * 10 + (c.toNat - '0'.toNat)) 0

/-- Try to match the regex `/in (\d+) days?/` at the START of `s`,
returning the captured number. -/
def matchInDaysAt (s : Str) : Option Nat :=
  match s with
  | 'i' :: 'n' :: ' ' :: rest =>
    if rest.takeWhile Char.isDigit = [] then none
    else
      match rest.dropWhile Char.isDigit with
      | ' ' :: 'd' :: 'a' :: 'y' :: _ => some (digitsToNat (rest.takeWhile Char.isDigit))
      | _ => none
  | _ => none

/-- `normalizedInput.match(/in (\d+) days?/)` : the number captured by the
leftmost match, if any. -/
def findInDays : Str → Option Nat
  | [] => none
  | c :: t =>
    match matchInDaysAt (c :: t) with
    | some n => some n
    | none => findInDays t

/-- The relative-date pattern block of `formatDueDate` (lines 26-57),
acting on the normalized (lowercased, trimmed) input `ni`. -/
def patternDays (now : Instant) (ni : Str) : Option Nat :=
  if includesStr ni "today".toList then some now.days
  else if includesStr ni "tomorrow".toList then some (now.days + 1)
  else if includesStr ni "next week".toList || includesStr ni "next monday".toList then
    some (now.days + jsOrNat ((1 + 7 - jsGetDay now.days) % 7) 7)
  else if includesStr ni "next friday".toList then
    some (now.days + jsOrNat ((5 + 7 - jsGetDay now.days) % 7) 7)
  else (findInDays ni).map (fun n => now.days + n)

/-- The generic-parse fallback of `formatDueDate` (lines 59-76): `parsed`
is the calendar date produced by `new Date(dueInput)` (`none` =
`Invalid Date`).  `(fromDays now.days).1` is `today.getFullYear()`; the
inner `setFullYear` reads the (normalized) month/day of the snapped
date. -/
def genericDays (now : Instant) (parsed : Option (Nat × Nat × Nat)) : Option Nat :=
  match parsed with
  | none => none
  | some (y, m, d) =>
    if ltInstant (toDays y m d) now then
      if ltInstant (toDays (fromDays now.days).1 m d) now then
        some (toDays ((fromDays now.days).1 + 1)
          (fromDays (toDays (fromDays now.days).1 m d)).2.1
          (fromDays (toDays (fromDays now.days).1 m d)).2.2)
      else some (toDays (fromDays now.days).1 m d)
    else some (toDays y m d)

/-- `formatDueDate` (lines 19-77), as the day number of the returned
date. -/
def formatDueDateDays (now : Instant) (dueInput : Option Str)
    (parsed : Option (Nat × Nat × Nat)) : Option Nat :=
  match dueInput with
  | none => none
  | some s =>
    if s = [] then none
    else
      match patternDays now (trimStr (lowerStr s)) with
      | some n => some n
      | none => genericDays now parsed

/-- `formatDueDate` (lines 19-77): every branch returns
`toISOString().split('T')[0]` of the computed date. -/
def formatDueDate (now : Instant) (dueInput : Option Str)
    (parsed : Option (Nat × Nat × Nat)) : Option Str :=
  (formatDueDateDays now dueInput parsed).map (fun n => formatYMD (fromDays n))

/-! ## Claim C9: "today" is matched by substring containment -/

/-- Claim C9: any input whose lowercased trimmed form CONTAINS `"today"`
as a substring (e.g. `"not today"`) makes `formatDueDate` return the
current date: the relative patterns are substring tests, and the `today`
branch precedes all later patterns and the generic parse. -/
theorem formatDueDate_today_substring (now : Instant) (s : Str)
    (parsed : Option (Nat × Nat × Nat))
    (h : includesStr (trimStr (lowerStr s)) "today".toList = true) :
    formatDueDate now (some s) parsed = some (formatYMD (fromDays now.days)) := by
  have hs : ¬ s = [] := by
    intro he
    subst he
    exact absurd h (by decide)
  unfold formatDueDate formatDueDateDays patternDays
  dsimp only
  rw [if_neg hs, if_pos h]
  rfl

theorem formatDueDate_today_substring_witness :
    formatDueDate ⟨toDays 2026 10 11, 0⟩ (some "not today".toList) none =
      some "2026-10-11".toList := by
  rw [formatDueDate_today_substring ⟨toDays 2026 10 11, 0⟩ "not today".toList none
    (by decide)]
  rfl

/-! ## Claim C6: rolling a past parsed date forward -/

/-- Claim C6 counterexample: at invocation date 2026-10-11, the input
`"2024-01-15"` (parsed date 2024-01-15, earlier than today, matching no
relative pattern) is returned as `2027-01-15` — three years after the
parsed date, not "exactly one year" (which would be `2025-01-15`). -/
theorem formatDueDate_rollforward_counterexample :
    formatDueDate ⟨toDays 2026 10 11, 0⟩ (some "2024-01-15".toList)
        (some (2024, 1, 15)) = some "2027-01-15".toList ∧
      formatYMD (fromDays (toDays (2024 + 1) 1 15)) = "2025-01-15".toList ∧
      ¬ ("2027-01-15".toList = "2025-01-15".toList) := by
  refine ⟨rfl, rfl, by decide⟩

/-- Claim C6 (amended): for an input matching no relative pattern that
parses as a calendar date earlier than now, the code first SETS THE YEAR
TO THE CURRENT YEAR (which can move the date by more than one year), then,
if the result is still earlier than now, increments the year once more;
hence the returned date's year is the current year or the next, and the
returned date is never earlier than today's date. -/
theorem formatDueDate_past_parse_rolls_within_year
    (now : Instant) (s : Str) (y m d ty tm td : Nat)
    (hs : ¬ s = [])
    (hpat : patternDays now (trimStr (lowerStr s)) = none)
    (hy : 1 ≤ y) (hm1 : 1 ≤ m) (hm2 : m ≤ 12) (hd1 : 1 ≤ d) (hd2 : d ≤ 31)
    (hty : 1 ≤ ty) (htm1 : 1 ≤ tm) (htm2 : tm ≤ 12) (htd1 : 1 ≤ td)
    (htd2 : td ≤ 31)
    (hnow : now.days = toDays ty tm td)
    (hpast : toDays y m d < now.days) :
    ∃ r, formatDueDate now (some s) (some (y, m, d)) =
        some (formatYMD (fromDays r)) ∧
      now.days ≤ r ∧ ((fromDays r).1 = ty ∨ (fromDays r).1 = ty + 1) := by
  have hyear : (fromDays now.days).1 = ty := by
    rw [hnow]; exact fromDays_toDays_year hty htm1 htm2 htd1 htd2
  have hfirst : ltInstant (toDays y m d) now = true := by
    simp [ltInstant]; omega
  unfold formatDueDate formatDueDateDays genericDays
  dsimp only
  rw [if_neg hs, hpat]
  dsimp only
  rw [hyear, if_pos hfirst]
  by_cases hsnap : ltInstant (toDays ty m d) now = true
  · rw [if_pos hsnap]
    set m2 := (fromDays (toDays ty m d)).2.1 with hm2def
    set d2 := (fromDays (toDays ty m d)).2.2 with hd2def
    have hb := fromDays_md_bounds (toDays ty m d)
    refine ⟨toDays (ty + 1) m2 d2, rfl, ?_, ?_⟩
    · have hub : toDays ty tm td ≤ DB ty + 305 :=
        toDays_ub hty htm1 htm2 htd2
      have hlb := toDays_next_year_lb (y := ty) (m := m2) (d := d2)
        (by omega) (by omega) (by omega)
      have hstep := DB_step_lower ty
      omega
    · right
      exact fromDays_toDays_year (by omega) (by omega) (by omega) (by omega)
        (by omega)
  · rw [if_neg hsnap]
    refine ⟨toDays ty m d, rfl, ?_, ?_⟩
    · simp [ltInstant] at hsnap
      omega
    · left
      exact fromDays_toDays_year hty hm1 hm2 hd1 hd2

theorem formatDueDate_past_parse_rolls_within_year_witness :
    ∃ r, formatDueDate ⟨toDays 2026 10 11, 43200000⟩ (some "2026-03-01".toList)
        (some (2026, 3, 1)) = some (formatYMD (fromDays r)) ∧
      (⟨toDays 2026 10 11, 43200000⟩ : Instant).days ≤ r ∧
      ((fromDays r).1 = 2026 ∨ (fromDays r).1 = 2026 + 1) :=
  formatDueDate_past_parse_rolls_within_year
    ⟨toDays 2026 10 11, 43200000⟩ "2026-03-01".toList 2026 3 1 2026 10 11
    (by decide) (by decide) (by decide) (by decide) (by decide) (by decide)
    (by decide) (by decide) (by decide) (by decide) (by decide) (by decide)
    rfl (by decide)

/-! ## Default due date (`getDefaultDueDate`, tool module lines 215-229) -/

/-- `getDefaultDueDate(project)` : today plus the `||`-chained offset
`sla?.default_due_days_from_now || project.defaults.due_days_from_now ||
registry.defaults.default_due_days_from_now || 3` (note `||` treats 0 as
absent). -/
def getDefaultDueDate (registry : Registry) (project : Project) (now : Instant) :
    Str :=
  formatYMD (fromDays (now.days +
    jsOrNum (project.context.sla.map (·.default_due_days_from_now))
      (jsOrNat project.defaults.due_days_from_now
        (jsOrNat registry.defaults.default_due_days_from_now 3))))

/-! ## Claim C7: due-date offset priority -/

/-- The offset the code actually selects: the first NON-ZERO value among
SLA offset (0 when the SLA block is absent), project default, registry
default; else the hard-coded 3. -/
def firstNonzeroOffset (registry : Registry) (project : Project) : Nat :=
  (([(project.context.sla.map (·.default_due_days_from_now)).getD 0,
      project.defaults.due_days_from_now,
      registry.defaults.default_due_days_from_now].find?
        (fun x => decide (¬ x = 0))).getD 3)

theorem offset_chain_eq_firstNonzero (registry : Registry) (project : Project) :
    jsOrNum (project.context.sla.map (·.default_due_days_from_now))
        (jsOrNat project.defaults.due_days_from_now
          (jsOrNat registry.defaults.default_due_days_from_now 3)) =
      firstNonzeroOffset registry project := by
  unfold firstNonzeroOffset jsOrNum jsOrNat
  cases hs : project.context.sla with
  | none =>
    by_cases hp : project.defaults.due_days_from_now = 0 <;>
      by_cases hr : registry.defaults.default_due_days_from_now = 0 <;>
        simp [hp, hr, List.find?]
  | some sla =>
    by_cases hv : sla.default_due_days_from_now = 0 <;>
      by_cases hp : project.defaults.due_days_from_now = 0 <;>
        by_cases hr : registry.defaults.default_due_days_from_now = 0 <;>
          simp [hv, hp, hr, List.find?]

/-- Claim C7 (amended): `getDefaultDueDate` returns today plus the first
NON-ZERO offset of the chain SLA -> project default -> registry default,
falling back to 3; a present offset with value 0 at a higher-priority
level is SKIPPED (JS `||` treats 0 as absent), contradicting the claim's
"including the value 0" reading — see the counterexample. -/
theorem getDefaultDueDate_first_nonzero (registry : Registry) (project : Project)
    (now : Instant) :
    getDefaultDueDate registry project now =
      formatYMD (fromDays (now.days + firstNonzeroOffset registry project)) := by
  unfold getDefaultDueDate
  rw [offset_chain_eq_firstNonzero]

def cxContextSla0 : ProjectContext :=
  { summary := [], primary_contact := none, email_policy := none
    task_guidance := none
    sla := some { default_due_days_from_now := 0, escalation_contact := [] }
    rules := none }

/-- A project whose SLA offset is PRESENT with value 0 and whose own
default offset is 5. -/
def cxProjectSla0 : Project :=
  { id := "p1".toList, name := "Proj".toList, aliases := []
    projType := .departmental, description := [], owners := []
    stakeholders := { primary := [], secondary := [] }
    allowed_assignees := [], sections := []
    defaults := { section_id := none, due_days_from_now := 5 }
    custom_fields := [], routing_keywords := [], notes_guidance := []
    context := cxContextSla0, active := true }

/-- Claim C7 counterexample: with an SLA offset PRESENT and equal to 0 and
a project default of 5, `getDefaultDueDate` at 2026-10-11 returns
2026-10-16 (today + 5), not today + 0 as the claimed strict priority
("including the value 0") requires. -/
theorem getDefaultDueDate_zero_sla_counterexample :
    getDefaultDueDate (demoRegistry [] []) cxProjectSla0 ⟨toDays 2026 10 11, 0⟩
        = "2026-10-16".toList ∧
      ¬ ("2026-10-16".toList =
          formatYMD (fromDays (toDays 2026 10 11 + 0))) := by
  exact ⟨rfl, by decide⟩

/-! ## Notes synthesis (`synthesizeNotes`, tool module lines 82-155) -/

/-- Join pieces with a separator (empty for `[]`, no trailing separator). -/
def joinSep (sep : Str) : List Str → Str
  | [] => []
  | t :: rest =>
    match rest with
    | [] => t
    | _ :: _ => t ++ sep ++ joinSep sep rest

/-- `s.replace(new RegExp(lit, 'g'), rep)` for a literal pattern: replace
every (leftmost, non-overlapping) occurrence, not rescanning the
replacement. -/
def replaceAll (pat rep : Str) : Str → Str
  | [] => []
  | c :: t =>
    if pat = [] then c :: t
    else if pat.isPrefixOf (c :: t) then
      rep ++ replaceAll pat rep (t.drop (pat.length - 1))
    else c :: replaceAll pat rep t
termination_by s => s.length
decreasing_by
  · simp only [List.length_cons, List.length_drop]
    omega
  · simp only [List.length_cons]
    omega

/-- The `templateVars` substitution table (lines 96-115), in declaration
order. -/
def templateVars (originalNotes : Option Str) (title : Str) : List (Str × Str) :=
  [("{goal}".toList, jsOrStr originalNotes "As specified in title".toList),
   ("{details}".toList, jsOrStr originalNotes "See task title for details".toList),
   ("{acceptance_criteria}".toList, "Task completed as specified".toList),
   ("{acceptance}".toList, "Task completed successfully".toList),
   ("{customer}".toList, "TBD".toList),
   ("{objective}".toList, title),
   ("{dependencies}".toList, "None identified".toList),
   ("{focus}".toList, jsOrStr originalNotes title),
   ("{dates}".toList, "TBD".toList),
   ("{issue}".toList, jsOrStr originalNotes "As described".toList),
   ("{impact}".toList, "TBD".toList),
   ("{steps}".toList, "TBD".toList),
   ("{owner}".toList, "Assigned person".toList),
   ("{company}".toList, "TBD".toList),
   ("{stack}".toList, "TBD".toList),
   ("{pains}".toList, "TBD".toList),
   ("{timeline}".toList, "TBD".toList),
   ("{budget}".toList, "TBD".toList)]

/-- `// Replace all template variables` (lines 118-121). -/
def applyTemplate (template : Str) (originalNotes : Option Str) (title : Str) :
    Str :=
  (templateVars originalNotes title).foldl
    (fun notes kv => replaceAll kv.1 kv.2 notes) template

/-- `rule.when.contains_any.some(keyword =>
combinedText.includes(keyword.toLowerCase()))`. -/
def ruleMatches (combined : Str) (rule : ProjectRule) : Bool :=
  rule.whenCond.contains_any.any (fun kw => includesStr combined (lowerStr kw))

/-- The append step of a firing rule (lines 134-138):
`notes = notes.trim(); if (notes) notes += '\n\n'; notes += append`. -/
def appendNote (notes t : Str) : Str :=
  if trimStr notes = [] then t
  else trimStr notes ++ '\n' :: '\n' :: t

/-- The `for (const rule of context.rules)` loop (lines 128-140). -/
def applyRules (combined : Str) : Str → List ProjectRule → Str
  | notes, [] => notes
  | notes, r :: rest =>
    if ruleMatches combined r = true ∧ ¬ r.thenAct.append_note = [] then
      applyRules combined (appendNote notes r.thenAct.append_note) rest
    else applyRules combined notes rest

/-- `` `${title} ${originalNotes || ''}`.toLowerCase() `` (line 126). -/
def combinedText (originalNotes : Option Str) (title : Str) : Str :=
  lowerStr (title ++ ' ' :: jsOrStr originalNotes [])

/-- Notes after the template stage (lines 87-122): the template is applied
when `context.task_guidance?.notes_template` is truthy, else the raw
notes (or `''`). -/
def templateBase (project : Project) (originalNotes : Option Str) (title : Str) :
    Str :=
  match project.context.task_guidance with
  | some tg =>
    if ¬ tg.notes_template = [] then applyTemplate tg.notes_template originalNotes title
    else jsOrStr originalNotes []
  | none => jsOrStr originalNotes []

/-- Notes after the conditional-rules stage (lines 124-141). -/
def rulesStage (project : Project) (originalNotes : Option Str) (title : Str) :
    Str :=
  match project.context.rules with
  | some rules =>
    if ¬ rules = [] then
      applyRules (combinedText originalNotes title)
        (templateBase project originalNotes title) rules
    else templateBase project originalNotes title
  | none => templateBase project originalNotes title

/-- The notes-guidance prepend (lines 143-152). -/
def applyGuidance (guidance notes : Str) : Str :=
  if ¬ guidance = [] ∧ includesStr notes guidance = false then
    (if trimStr notes = [] then guidance
     else guidance ++ '\n' :: '\n' :: trimStr notes)
  else notes

/-- The guidance prepend plus `return notes.trim() || 'No additional
notes.'` (lines 143-154). -/
def finalizeNotes (project : Project) (notes : Str) : Str :=
  if ¬ trimStr (applyGuidance project.notes_guidance notes) = [] then
    trimStr (applyGuidance project.notes_guidance notes)
  else "No additional notes.".toList

/-- `synthesizeNotes` (lines 82-155). -/
def synthesizeNotes (project : Project) (originalNotes : Option Str)
    (title : Str) : Str :=
  finalizeNotes project (rulesStage project originalNotes title)

/-! ## Title refinement (`refineTitle`, tool module lines 160-210) -/

/-- The fixed action-verb list (lines 167-171). -/
def actionVerbs : List Str :=
  ["create".toList, "send".toList, "email".toList, "confirm".toList,
   "schedule".toList, "deliver".toList, "complete".toList, "review".toList,
   "update".toList, "fix".toList, "implement".toList, "analyze".toList,
   "prepare".toList, "draft".toList, "finalize".toList, "submit".toList,
   "approve".toList, "coordinate".toList]

/-- The verb inference (lines 182-191). -/
def inferVerb (title : Str) : Str :=
  if includesStr (lowerStr title) "email".toList
      || includesStr (lowerStr title) "send".toList then
    "Send ".toList ++ title
  else if includesStr (lowerStr title) "meeting".toList
      || includesStr (lowerStr title) "call".toList then
    "Schedule ".toList ++ title
  else if includesStr (lowerStr title) "document".toList
      || includesStr (lowerStr title) "report".toList then
    "Prepare ".toList ++ title
  else "Complete ".toList ++ title

/-- The `for (const rule of titleRules)` loop (lines 177-206): the only
effectual branch prepends one inferred verb and then `break`s; the other
rule kinds are no-ops. -/
def applyTitleRules (startsWithVerb : Bool) (title : Str) : List Str → Str
  | [] => title
  | rule :: rest =>
    if includesStr (lowerStr rule) "verb".toList = true ∧ startsWithVerb = false then
      inferVerb title
    else applyTitleRules startsWithVerb title rest

/-- `refineTitle` (lines 160-210). -/
def refineTitle (project : Project) (originalTitle : Str) : Str :=
  match project.context.task_guidance with
  | some tg =>
    if ¬ tg.title_rules = [] then
      applyTitleRules
        (actionVerbs.contains
          (lowerStr ((splitSpace (trimStr originalTitle)).headD [])))
        (trimStr originalTitle) tg.title_rules
    else trimStr originalTitle
  | none => trimStr originalTitle

/-! ## The orchestrating tool (`asanaCreateTask.execute`, lines 240-345) -/

structure TaskDetails where
  project : Str
  assignee : Str
  title : Str
  dueDate : Str
deriving DecidableEq, Repr

/-- The tool's outbound result object. -/
structure ExecResult where
  success : Bool
  message : Option Str
  error : Option Str
  taskId : Option Str
  permalink : Option Str
  details : Option TaskDetails
deriving DecidableEq, Repr

/-- An execute run together with the number of create / permalink network
calls it performed. -/
structure ExecOut where
  result : ExecResult
  createCalls : Nat
  permaCalls : Nat
deriving Repr

/-- A failure-only result. -/
def failResult (err : Str) : ExecResult :=
  { success := false, message := none, error := some err, taskId := none
    permalink := none, details := none }

/-- The error-message refinement of the create path (lines 322-338). -/
def mapCreateError (e : AsanaAPIError) : Str :=
  if includesStr e.message "ASANA_ACCESS_TOKEN".toList then
    "Asana connection not configured. Please check environment settings.".toList
  else if includesStr e.message "Rate limit".toList then
    "Asana rate limit reached. Please wait a moment and try again.".toList
  else if includesStr e.message "401".toList || includesStr e.message "403".toList then
    "Asana authentication failed. Please check access token permissions.".toList
  else if includesStr e.message "404".toList then
    "Project or workspace not found in Asana. Please verify the project ID.".toList
  else e.message

/-- `asanaCreateTask.execute` (lines 240-345).  `env` stands for the
Asana service; `parsedDue` is the `new Date(due_on)` parse outcome used by
`formatDueDate`'s generic branch. -/
def asanaCreateTaskExecute (registry : Registry) (env : AsanaEnv) (now : Instant)
    (project assignee title : Str) (notes : Option Str) (due_on : Option Str)
    (parsedDue : Option (Nat × Nat × Nat)) : ExecOut :=
  match resolveProjectByAlias registry project with
  | none =>
    if registry.policy.on_unknown_project = .ask then
      { result := failResult ("I don't recognize the project \"".toList ++ project
          ++ "\". Available projects are: ".toList
          ++ joinSep ", ".toList (getAvailableProjects registry)
          ++ ". Which one did you mean?".toList)
        createCalls := 0, permaCalls := 0 }
    else
      { result := failResult ("Project \"".toList ++ project
          ++ "\" not found in registry. Available projects: ".toList
          ++ joinSep ", ".toList (getAvailableProjects registry))
        createCalls := 0, permaCalls := 0 }
  | some resolvedProject =>
    match resolvePersonByAlias registry assignee with
    | none =>
      if registry.policy.on_unknown_person = .ask then
        { result := failResult ("I don't recognize \"".toList ++ assignee
            ++ "\". Available people are: ".toList
            ++ joinSep ", ".toList (getAvailablePeople registry)
            ++ ". Who did you mean?".toList)
          createCalls := 0, permaCalls := 0 }
      else
        { result := failResult ("Person \"".toList ++ assignee
            ++ "\" not found in registry. Available people: ".toList
            ++ joinSep ", ".toList (getAvailablePeople registry))
          createCalls := 0, permaCalls := 0 }
    | some resolvedPerson =>
      if isAssigneeAllowedForProject resolvedPerson.email resolvedProject = false then
        { result := failResult (resolvedPerson.name
            ++ " cannot be assigned to tasks in ".toList ++ resolvedProject.name
            ++ ". Allowed assignees: ".toList
            ++ joinSep ", ".toList
              (getAllowedAssigneesForProject registry resolvedProject))
          createCalls := 0, permaCalls := 0 }
      else
        let refinedTitle := refineTitle resolvedProject title
        let synthesizedNotes := synthesizeNotes resolvedProject notes refinedTitle
        let formattedDueDate := jsOrStr (formatDueDate now due_on parsedDue)
          (getDefaultDueDate registry resolvedProject now)
        -- the request body `{name, notes, assignee, due_on, projects}` is
        -- sent to the service; the service's behaviour is the environment
        let taskName := refinedTitle
        let taskNotes := synthesizedNotes
        let out := createTaskWithRetry env 2
        match out.result with
        | .ok created =>
          { result :=
              { success := true
                message := some ("✅ Created: ".toList ++ refinedTitle
                  ++ " · Project: ".toList ++ resolvedProject.name
                  ++ " · Assignee: ".toList ++ resolvedPerson.name
                  ++ " · Due: ".toList ++ formattedDueDate
                  ++ " · Link: ".toList ++ created.permalink)
                error := none, taskId := some created.gid
                permalink := some created.permalink
                details := some { project := resolvedProject.name
                                  assignee := resolvedPerson.name
                                  title := refinedTitle
                                  dueDate := formattedDueDate } }
            createCalls := out.createCalls, permaCalls := out.permaCalls }
        | .error e =>
          { result := failResult ("Failed to create task: ".toList
              ++ mapCreateError e)
            createCalls := out.createCalls, permaCalls := out.permaCalls }

/-! ## Claim C8: all matching rules fire, in order -/

/-- The `append_note` texts of the rules whose keywords occur in the
combined text, in declaration order. -/
def matchedAppends (combined : Str) (rules : List ProjectRule) : List Str :=
  (rules.filter (fun r => ruleMatches combined r)).map
    (fun r => r.thenAct.append_note)

theorem dropWhile_append_eq_self {p : Char → Bool} {a : Str}
    (h : a.dropWhile p = a) (ha : ¬ a = []) (x : Str) :
    (a ++ x).dropWhile p = a ++ x := by
  cases a with
  | nil => exact absurd rfl ha
  | cons c t =>
    have hc : p c = false := by
      by_contra hpc
      have hpc' : p c = true := by revert hpc; cases p c <;> simp
      rw [List.dropWhile_cons, if_pos hpc'] at h
      have hlen := congrArg List.length h
      have hle := (List.dropWhile_suffix (l := t) p).length_le
      simp at hlen
      omega
    rw [List.cons_append, List.dropWhile_cons, if_neg (by simp [hc])]

theorem trim_fixed_parts {a : Str} (h : trimStr a = a) :
    a.dropWhile isWs = a ∧ a.rdropWhile isWs = a := by
  unfold trimStr trimRight trimLeft at h
  have h1 := (List.dropWhile_suffix (l := a) isWs).length_le
  have h2 := (List.rdropWhile_prefix isWs (a.dropWhile isWs)).length_le
  have hlen := congrArg List.length h
  have hL : a.dropWhile isWs = a :=
    (List.dropWhile_suffix isWs).eq_of_length (by omega)
  rw [hL] at h
  exact ⟨hL, h⟩

theorem rdropWhile_append_eq_self {p : Char → Bool} {a : Str}
    (h : a.rdropWhile p = a) (ha : ¬ a = []) (x : Str) :
    (x ++ a).rdropWhile p = x ++ a := by
  unfold List.rdropWhile at h ⊢
  have h' : a.reverse.dropWhile p = a.reverse := by
    have := congrArg List.reverse h
    simpa using this
  have hr : ¬ a.reverse = [] := by simpa using ha
  rw [List.reverse_append, dropWhile_append_eq_self h' hr]
  simp

/-- Gluing two trim-fixed nonempty strings with a blank line is
trim-fixed. -/
theorem trimStr_append_sep {a t : Str} (hafix : trimStr a = a) (ha : ¬ a = [])
    (htfix : trimStr t = t) (ht : ¬ t = []) :
    trimStr (a ++ '\n' :: '\n' :: t) = a ++ '\n' :: '\n' :: t := by
  obtain ⟨haL, haR⟩ := trim_fixed_parts hafix
  obtain ⟨htL, htR⟩ := trim_fixed_parts htfix
  unfold trimStr trimLeft trimRight
  rw [show a ++ '\n' :: '\n' :: t = a ++ (['\n', '\n'] ++ t) by simp]
  rw [dropWhile_append_eq_self haL ha]
  rw [show a ++ (['\n', '\n'] ++ t) = (a ++ ['\n', '\n']) ++ t by simp]
  rw [rdropWhile_append_eq_self htR ht]

/-- `trim` is idempotent. -/
theorem trimStr_idem (s : Str) : trimStr (trimStr s) = trimStr s := by
  unfold trimStr trimLeft trimRight
  have h1 : (s.dropWhile isWs).rdropWhile isWs <+: s.dropWhile isWs :=
    List.rdropWhile_prefix isWs (s.dropWhile isWs)
  have hfix : ((s.dropWhile isWs).rdropWhile isWs).dropWhile isWs =
      (s.dropWhile isWs).rdropWhile isWs := by
    obtain ⟨tail, htail⟩ := h1
    cases hu : (s.dropWhile isWs).rdropWhile isWs with
    | nil => rfl
    | cons c t =>
      have hd : isWs c = false := by
        have hu2 : s.dropWhile isWs = c :: (t ++ tail) := by
          rw [← htail, hu]; simp
        have := List.dropWhile_idempotent (l := s) (p := isWs)
        rw [hu2] at this
        rw [List.dropWhile_cons] at this
        by_contra hpc
        have hpc' : isWs c = true := by revert hpc; cases isWs c <;> simp
        rw [if_pos hpc'] at this
        have hlen := congrArg List.length this
        have hle := (List.dropWhile_suffix (l := t ++ tail) isWs).length_le
        simp [List.length_append] at hlen hle
        omega
      rw [List.dropWhile_cons, if_neg (by simp [hd])]
  rw [hfix, List.rdropWhile_idempotent]

/-- A fired `appendNote` result is trim-fixed and nonempty when the
appended text is. -/
theorem appendNote_fixed {notes t : Str} (htfix : trimStr t = t)
    (ht : ¬ t = []) :
    trimStr (appendNote notes t) = appendNote notes t ∧
      ¬ appendNote notes t = [] := by
  unfold appendNote
  by_cases hb : trimStr notes = []
  · rw [if_pos hb]
    exact ⟨htfix, ht⟩
  · rw [if_neg hb]
    refine ⟨trimStr_append_sep (trimStr_idem notes) hb htfix ht, by simp⟩

/-- Closed form of the rules loop: the trimmed incoming notes followed by
all matching rules' texts, in order, blank-line separated (provided the
configured texts are nonempty and carry no leading/trailing whitespace);
if no rule fires the notes pass through untouched (untrimmed). -/
theorem applyRules_closed (combined : Str) (rules : List ProjectRule)
    (hwf : ∀ r ∈ rules, trimStr r.thenAct.append_note = r.thenAct.append_note ∧
      ¬ r.thenAct.append_note = []) :
    ∀ notes, applyRules combined notes rules =
      (if matchedAppends combined rules = [] then notes
       else joinSep ['\n', '\n']
         ((if trimStr notes = [] then [] else [trimStr notes]) ++
           matchedAppends combined rules)) := by
  induction rules with
  | nil => intro notes; simp [applyRules, matchedAppends]
  | cons r rest ih =>
    intro notes
    have hwfr := hwf r (List.mem_cons_self r rest)
    have hwrest : ∀ r' ∈ rest, trimStr r'.thenAct.append_note =
        r'.thenAct.append_note ∧ ¬ r'.thenAct.append_note = [] :=
      fun r' hr' => hwf r' (List.mem_cons_of_mem r hr')
    by_cases hm : ruleMatches combined r = true
    · unfold applyRules
      rw [if_pos ⟨hm, hwfr.2⟩]
      rw [ih hwrest (appendNote notes r.thenAct.append_note)]
      have hma : matchedAppends combined (r :: rest) =
          r.thenAct.append_note :: matchedAppends combined rest := by
        simp [matchedAppends, hm]
      rw [hma]
      obtain ⟨hfix, hne⟩ := appendNote_fixed hwfr.1 hwfr.2
      cases hrest : matchedAppends combined rest with
      | nil =>
        rw [if_pos rfl,
          if_neg (show ¬ (r.thenAct.append_note :: ([] : List Str)) = [] by simp)]
        by_cases hb : trimStr notes = []
        · rw [if_pos hb, List.nil_append]
          unfold appendNote
          rw [if_pos hb]
          simp [joinSep]
        · rw [if_neg hb]
          unfold appendNote
          rw [if_neg hb]
          simp [joinSep]
      | cons m ms =>
        rw [if_neg (show ¬ (m :: ms) = [] by simp)]
        rw [hfix, if_neg hne]
        rw [if_neg (show ¬ (r.thenAct.append_note :: m :: ms) = [] by simp)]
        by_cases hb : trimStr notes = []
        · rw [if_pos hb, List.nil_append]
          unfold appendNote
          rw [if_pos hb]
          rfl
        · rw [if_neg hb]
          unfold appendNote
          rw [if_neg hb]
          simp [joinSep, List.append_assoc]
    · unfold applyRules
      rw [if_neg (by simp [hm])]
      rw [ih hwrest notes]
      have hma : matchedAppends combined (r :: rest) =
          matchedAppends combined rest := by
        simp [matchedAppends, hm]
      rw [hma]

/-- Claim C8: for a project whose rules are configured with nonempty,
whitespace-trimmed `append_note` texts, `synthesizeNotes` appends the
texts of exactly the rules whose `contains_any` keywords occur
(case-insensitively) in the combined refined-title-and-raw-notes text —
all of them, each exactly once, in the project's declared rule order,
blank-line separated after the (trimmed) template-stage notes; the
guidance-prepend and final-trim stage then applies unchanged. -/
theorem synthesizeNotes_appends_matching_rules (project : Project)
    (originalNotes : Option Str) (title : Str) (rules : List ProjectRule)
    (hr : project.context.rules = some rules)
    (hwf : ∀ r ∈ rules, trimStr r.thenAct.append_note = r.thenAct.append_note ∧
      ¬ r.thenAct.append_note = []) :
    synthesizeNotes project originalNotes title =
      finalizeNotes project
        (if matchedAppends (combinedText originalNotes title) rules = [] then
          templateBase project originalNotes title
         else
          joinSep ['\n', '\n']
            ((if trimStr (templateBase project originalNotes title) = [] then []
              else [trimStr (templateBase project originalNotes title)]) ++
              matchedAppends (combinedText originalNotes title) rules)) := by
  unfold synthesizeNotes rulesStage
  rw [hr]
  by_cases hne : rules = []
  · subst hne
    simp [matchedAppends]
  · dsimp only
    rw [if_pos hne]
    rw [applyRules_closed _ _ hwf]

/-- A project context with no attached guidance machinery. -/
def plainContext : ProjectContext :=
  { summary := [], primary_contact := none, email_policy := none
    task_guidance := none, sla := none, rules := none }

def cxRuleA : ProjectRule :=
  { whenCond := { contains_any := ["alpha".toList] }
    thenAct := { append_note := "Note A".toList } }

def cxRuleB : ProjectRule :=
  { whenCond := { contains_any := ["zzz".toList] }
    thenAct := { append_note := "Note B".toList } }

def cxRuleC : ProjectRule :=
  { whenCond := { contains_any := ["beta".toList] }
    thenAct := { append_note := "Note C".toList } }

/-- A project with three conditional rules (the middle one not matching
the probe inputs). -/
def wProjectRules : Project :=
  { id := "p8".toList, name := "Rules".toList, aliases := []
    projType := .departmental, description := [], owners := []
    stakeholders := { primary := [], secondary := [] }
    allowed_assignees := [], sections := []
    defaults := { section_id := none, due_days_from_now := 3 }
    custom_fields := [], routing_keywords := [], notes_guidance := []
    context := { plainContext with rules := some [cxRuleA, cxRuleB, cxRuleC] }
    active := true }

theorem synthesizeNotes_appends_matching_rules_witness :
    synthesizeNotes wProjectRules (some "beta plan".toList) "Alpha task".toList =
      finalizeNotes wProjectRules
        (if matchedAppends
            (combinedText (some "beta plan".toList) "Alpha task".toList)
            [cxRuleA, cxRuleB, cxRuleC] = [] then
          templateBase wProjectRules (some "beta plan".toList) "Alpha task".toList
         else
          joinSep ['\n', '\n']
            ((if trimStr (templateBase wProjectRules (some "beta plan".toList)
                "Alpha task".toList) = [] then []
              else [trimStr (templateBase wProjectRules (some "beta plan".toList)
                "Alpha task".toList)]) ++
              matchedAppends
                (combinedText (some "beta plan".toList) "Alpha task".toList)
                [cxRuleA, cxRuleB, cxRuleC])) :=
  synthesizeNotes_appends_matching_rules wProjectRules (some "beta plan".toList)
    "Alpha task".toList [cxRuleA, cxRuleB, cxRuleC] rfl (by decide)

/-! ## Claim C5: validation failures short-circuit before any network call -/

/-- Claim C5: whenever project resolution fails, or person resolution
fails, or the resolved assignee is not allowed for the resolved project,
`asanaCreateTask.execute` returns a failure result having performed ZERO
task-creation and ZERO permalink network calls. -/
theorem execute_validation_failure_no_network
    (registry : Registry) (env : AsanaEnv) (now : Instant)
    (project assignee title : Str) (notes : Option Str) (due_on : Option Str)
    (parsedDue : Option (Nat × Nat × Nat))
    (h : resolveProjectByAlias registry project = none ∨
      resolvePersonByAlias registry assignee = none ∨
      (∃ pr pe, resolveProjectByAlias registry project = some pr ∧
        resolvePersonByAlias registry assignee = some pe ∧
        isAssigneeAllowedForProject pe.email pr = false)) :
    (asanaCreateTaskExecute registry env now project assignee title notes
        due_on parsedDue).result.success = false ∧
      (asanaCreateTaskExecute registry env now project assignee title notes
        due_on parsedDue).createCalls = 0 ∧
      (asanaCreateTaskExecute registry env now project assignee title notes
        due_on parsedDue).permaCalls = 0 := by
  unfold asanaCreateTaskExecute
  cases hP : resolveProjectByAlias registry project with
  | none =>
    dsimp only
    split_ifs <;> exact ⟨rfl, rfl, rfl⟩
  | some pr =>
    cases hQ : resolvePersonByAlias registry assignee with
    | none =>
      dsimp only
      split_ifs <;> exact ⟨rfl, rfl, rfl⟩
    | some pe =>
      have hall : isAssigneeAllowedForProject pe.email pr = false := by
        rcases h with h | h | ⟨pr', pe', hpr', hpe', hall'⟩
        · rw [hP] at h; cases h
        · rw [hQ] at h; cases h
        · rw [hP] at hpr'
          rw [hQ] at hpe'
          injection hpr' with e1
          injection hpe' with e2
          subst e1
          subst e2
          exact hall'
      dsimp only
      rw [if_pos hall]
      exact ⟨rfl, rfl, rfl⟩

def wPerson5 : Person :=
  { email := "p@x.com".toList, name := "Pat".toList, aliases := []
    role := [], department := [], active := true }

/-- A project that allows NO assignees. -/
def wProject5 : Project :=
  { id := "p5".toList, name := "proj".toList, aliases := []
    projType := .departmental, description := [], owners := []
    stakeholders := { primary := [], secondary := [] }
    allowed_assignees := [], sections := []
    defaults := { section_id := none, due_days_from_now := 3 }
    custom_fields := [], routing_keywords := [], notes_guidance := []
    context := plainContext, active := true }

theorem execute_validation_failure_no_network_witness :
    (asanaCreateTaskExecute (demoRegistry [wPerson5] [wProject5]) happyEnv
        ⟨toDays 2026 10 11, 0⟩ "proj".toList "p@x.com".toList "Do".toList
        none none none).result.success = false ∧
      (asanaCreateTaskExecute (demoRegistry [wPerson5] [wProject5]) happyEnv
        ⟨toDays 2026 10 11, 0⟩ "proj".toList "p@x.com".toList "Do".toList
        none none none).createCalls = 0 ∧
      (asanaCreateTaskExecute (demoRegistry [wPerson5] [wProject5]) happyEnv
        ⟨toDays 2026 10 11, 0⟩ "proj".toList "p@x.com".toList "Do".toList
        none none none).permaCalls = 0 :=
  execute_validation_failure_no_network (demoRegistry [wPerson5] [wProject5])
    happyEnv ⟨toDays 2026 10 11, 0⟩ "proj".toList "p@x.com".toList "Do".toList
    none none none
    (Or.inr (Or.inr ⟨wProject5, wPerson5, by decide, by decide, by decide⟩))

end AsanaSpec
